import Mathlib

/-!
Verification of the dark-node-market repository: a shallow embedding of the
Monero address-generation handlers, the withdrawal handler, the order-items
grouping of the Orders view, and the news-editor selection wrapper, together
with theorems settling the specification claims.

JS numbers are modelled as rationals, JS strings as Lean strings (or lists of
characters where index arithmetic matters), database rows as Lean structures,
and external effects (price API, wallet-daemon JSON-RPC, random bytes, clock)
as explicit environment parameters.
-/

namespace DarkNodeMarket

/-! ## Orders view: grouping of order items (src/pages/Orders.tsx)

The fetched order_items rows are grouped into a record keyed by order_id:
  const grouped = @x7b@x7d; (itemsData || []).forEach it =>
    if (!grouped[it.order_id]) grouped[it.order_id] = [];
    grouped[it.order_id].push(@x7b id, order_id, product_id, quantity, price_eur @x7d)
The record is modelled as a function from keys to lists, absent key = []. -/

structure OrderItem where
  id : String
  order_id : String
  product_id : String
  quantity : Nat
  price_eur : ℚ
deriving DecidableEq

/-- One forEach step: push the (re-built) item onto the bucket of its order_id. -/
def groupStep (grouped : String → List OrderItem) (it : OrderItem) :
    String → List OrderItem :=
  fun k =>
    if k = it.order_id then
      grouped k ++ [⟨it.id, it.order_id, it.product_id, it.quantity, it.price_eur⟩]
    else grouped k

/-- The grouping loop of the Orders view over the fetched items list. -/
def groupItems (items : List OrderItem) : String → List OrderItem :=
  items.foldl groupStep (fun _ => [])

/-! ## News editor: wrapSelection (src/components/NewsEditor.tsx)

  const before = content.slice(0, start);
  const selected = content.slice(start, end);
  const after = content.slice(end);
  const newText = before + wrapper + selected + wrapper + after;
Strings are modelled as lists of characters; jsSliceFromTo and jsSliceFrom
coincide with JS String.prototype.slice for in-range arguments
0 <= a <= b <= length, which is what the selection bounds guarantee. -/

def jsSliceFromTo (s : List Char) (a b : Nat) : List Char :=
  (s.take b).drop a

def jsSliceFrom (s : List Char) (a : Nat) : List Char :=
  s.drop a

/-- wrapSelection from NewsEditor: selStart and selEnd are the textarea
selectionStart and selectionEnd. -/
def wrapSelection (content wrapper : List Char) (selStart selEnd : Nat) :
    List Char :=
  let before := jsSliceFromTo content 0 selStart
  let selected := jsSliceFromTo content selStart selEnd
  let after := jsSliceFrom content selEnd
  before ++ wrapper ++ selected ++ wrapper ++ after

/-! ### Helper lemmas -/

/-- Folding groupStep from any accumulator appends exactly the items whose
order_id equals the key, in list order. -/
lemma foldl_groupStep (items : List OrderItem) (g : String → List OrderItem)
    (k : String) :
    items.foldl groupStep g k =
      g k ++ items.filter (fun it => it.order_id = k) := by
  induction items generalizing g with
  | nil => simp
  | cons it rest ih =>
    obtain ⟨i1, i2, i3, i4, i5⟩ := it
    rw [List.foldl_cons, ih]
    by_cases hk : i2 = k
    · simp [groupStep, hk, List.filter_cons]
    · have hk' : ¬ k = i2 := fun h => hk h.symm
      simp [groupStep, hk, hk', List.filter_cons]

/-- C9: the order-items grouping is correct — every fetched item appears under
exactly the key equal to its own order_id, nothing is dropped or duplicated,
and the relative order within a group matches the fetched list; equivalently
each bucket is the filter of the fetched list by that key. -/
theorem c9_grouping_correct (items : List OrderItem) (k : String) :
    groupItems items k = items.filter (fun it => it.order_id = k) := by
  unfold groupItems
  rw [foldl_groupStep]
  simp

/-- C10: wrapSelection inserts the wrapper on both sides of the selected range,
leaving the text before selStart and after selEnd unchanged, and the length
grows by exactly twice the wrapper length. -/
theorem c10_wrapSelection_spec (content wrapper : List Char)
    (selStart selEnd : Nat) (h1 : selStart ≤ selEnd)
    (h2 : selEnd ≤ content.length) :
    wrapSelection content wrapper selStart selEnd =
      content.take selStart ++ wrapper ++
        ((content.take selEnd).drop selStart) ++ wrapper ++
        content.drop selEnd ∧
    (wrapSelection content wrapper selStart selEnd).length =
      content.length + 2 * wrapper.length := by
  constructor
  · simp [wrapSelection, jsSliceFromTo, jsSliceFrom]
  · simp only [wrapSelection, jsSliceFromTo, jsSliceFrom, List.length_append,
      List.length_drop, List.length_take]
    omega

/-- Witness for C10 at a concrete input: content "hello", wrapper "**",
selection [1, 3). -/
theorem c10_wrapSelection_spec_witness :
    wrapSelection "hello".toList "**".toList 1 3 =
      "hello".toList.take 1 ++ "**".toList ++
        (("hello".toList.take 3).drop 1) ++ "**".toList ++
        "hello".toList.drop 3 ∧
    (wrapSelection "hello".toList "**".toList 1 3).length =
      "hello".toList.length + 2 * "**".toList.length :=
  c10_wrapSelection_spec "hello".toList "**".toList 1 3 (by decide) (by decide)

/-! ## Stored key metadata (the JSON blob in user_addresses.private_key_encrypted)

The three writers of the blob store different field sets:
  - RPC address generator (success): walletFilename, walletPassword,
    addressIndex, spendKey, viewKey — no simulated field;
  - RPC address generator (fallback): simulated: true, note;
  - simple address generator: privateKey, viewKey — no simulated field.
An absent field is falsy in JS, so an absent simulated field is modelled as
simulated = false (the only consumer, walletInfo.simulated, tests truthiness). -/

structure KeyMeta where
  simulated : Bool
  note : Option String
  walletFilename : Option String
  walletPassword : Option String
  addressIndex : Option Nat
  spendKey : Option String
  viewKey : Option String
  privateKey : Option String
deriving DecidableEq

/-- A user_addresses row for (user, XMR), with its parsed key blob. -/
structure AddrRow where
  address : String
  meta : KeyMeta
deriving DecidableEq

/-- The per-user slice of user_addresses seen by the two generation handlers. -/
structure AddrDb where
  existing : Option AddrRow
deriving DecidableEq

/-! ## RPC-based address generation handler (src/unnamed/part_000) -/

/-- Outcome of the daemon interaction of the RPC generator (open/create wallet,
create_address, query_key collectively). -/
inductive GenRpcOutcome where
  | success (address : String) (addressIndex : Nat) (spendKey viewKey : String)
  | failure (msg : String)
deriving DecidableEq

/-- Environment of the RPC generator: the authenticated user id, the clock
string used in the wallet password, the daemon outcome, the 47 random bytes of
the fallback address, and whether the upsert errors. -/
structure GenEnv where
  userId : String
  nowString : String
  rpcOutcome : GenRpcOutcome
  fallbackBytes : List Nat
  upsertFails : Bool
deriving DecidableEq

/-- walletFilename = user_ followed by the user id with every dash replaced by
an underscore. -/
def walletFilenameOf (userId : String) : String :=
  "user_" ++ String.map (fun c => if c = '-' then '_' else c) userId

/-- The Monero-style character set of the fallback address generator. -/
def moneroCharset : List Char :=
  "ABCDEFGHJKLMNPQRSTUVWXYZabcdefghjkmnpqrstuvwxyz23456789".toList

/-- The fallback address: 48 followed by one charset character per random byte,
indexed by byte mod 58; indices past the 55-character set yield undefined in
JS, which Array.prototype.join drops, modelled by filterMap. -/
def simulatedAddressOf (bytes : List Nat) : String :=
  "48" ++ String.mk (bytes.filterMap (fun b => moneroCharset.get? (b % 58)))

/-- Response envelope of both generation handlers. -/
inductive GenResp where
  | ok (address : String) (message : String) (warning : Option String)
  | err (status : Nat) (message : String)
deriving DecidableEq

structure GenResult where
  resp : GenResp
  db : AddrDb
deriving DecidableEq

/-- Fresh-generation path of the RPC handler (reached when no usable address is
on file): try the daemon, fall back to a simulated address on failure. -/
def genRpcFresh (db : AddrDb) (env : GenEnv) : GenResult :=
  match env.rpcOutcome with
  | .success addr addressIndex spendKey viewKey =>
    let wf := walletFilenameOf env.userId
    let wp := "wallet_" ++ env.userId ++ "_" ++ env.nowString
    let meta : KeyMeta :=
      ⟨false, none, some wf, some wp, some addressIndex, some spendKey,
        some viewKey, none⟩
    if env.upsertFails then ⟨.err 500 "upsert failed", db⟩
    else
      ⟨.ok addr "Real Monero address generated successfully" none,
        ⟨some ⟨addr, meta⟩⟩⟩
  | .failure _ =>
    let simAddr := simulatedAddressOf env.fallbackBytes
    let meta : KeyMeta :=
      ⟨true, some "Generated without RPC - not functional for real transactions",
        none, none, none, none, none, none⟩
    if env.upsertFails then ⟨.err 500 "upsert failed", db⟩
    else
      ⟨.ok simAddr "Simulated Monero address generated (RPC not available)"
          (some "This is a simulated address - not functional for real transactions"),
        ⟨some ⟨simAddr, meta⟩⟩⟩

/-- The RPC-based address generation handler: return the stored address when a
non-pending row exists, otherwise generate. -/
def generateMoneroAddressRpc (db : AddrDb) (env : GenEnv) : GenResult :=
  match db.existing with
  | some existingXMR =>
    if existingXMR.address ≠ "pending" then
      ⟨.ok existingXMR.address "User already has Monero address" none, db⟩
    else genRpcFresh db env
  | none => genRpcFresh db env

/-! ## Simple address generation handler (src/unnamed/part_001) -/

/-- Environment of the simple generator: the random bytes behind the fabricated
address and the two keys, and whether the upsert errors. -/
structure SimpleGenEnv where
  addrBytes : List (Fin 256)
  spendBytes : List (Fin 256)
  viewBytes : List (Fin 256)
  upsertFails : Bool
deriving DecidableEq

/-- Lower-case hex digit. -/
def hexChar (n : Nat) : Char :=
  "0123456789abcdef".toList.getD (n % 16) '0'

/-- Two-digit hex of a byte (b.toString(16).padStart(2, 0)). -/
def byteHex (b : Fin 256) : List Char :=
  [hexChar (b.val / 16), hexChar (b.val % 16)]

structure MoneroWallet where
  address : String
  privateKey : String
  viewKey : String
deriving DecidableEq

/-- generateMoneroAddress from part_001: address = 4 followed by the first 94
hex characters of 64 random bytes; keys are the hex of 32 random bytes each. -/
def generateMoneroAddress (env : SimpleGenEnv) : MoneroWallet :=
  let addressBody := ((env.addrBytes.map byteHex).flatten).take 94
  ⟨"4" ++ String.mk addressBody,
    String.mk ((env.spendBytes.map byteHex).flatten),
    String.mk ((env.viewBytes.map byteHex).flatten)⟩

/-- Fresh-generation path of the simple handler: fabricate an address and store
it with a key blob holding only privateKey and viewKey (no simulated field). -/
def simpleGenFresh (db : AddrDb) (env : SimpleGenEnv) : GenResult :=
  let w := generateMoneroAddress env
  let meta : KeyMeta :=
    ⟨false, none, none, none, none, none, some w.viewKey, some w.privateKey⟩
  if env.upsertFails then ⟨.err 500 "upsert failed", db⟩
  else ⟨.ok w.address "Monero address generated successfully" none,
    ⟨some ⟨w.address, meta⟩⟩⟩

/-- The simple address generation handler. -/
def generateMoneroAddressSimple (db : AddrDb) (env : SimpleGenEnv) : GenResult :=
  match db.existing with
  | some existingXMR =>
    if existingXMR.address ≠ "pending" then
      ⟨.ok existingXMR.address "User already has Monero address" none, db⟩
    else simpleGenFresh db env
  | none => simpleGenFresh db env

/-! ## Withdrawal handler (src/supabase/functions/process-monero-withdrawal/index.ts)

The handler body after authentication is embedded as a pure function from the
request body, the per-user database slice and an environment of external effects
to a result carrying the JSON response, the updated database slice, and the
ordered list of status values written to the withdrawal_requests row (the
insert status first). -/

/-- The parsed request body. -/
structure WithdrawalInput where
  amount_eur : ℚ
  currency : String
  destination_address : String
deriving DecidableEq

/-- A withdrawal_fees row. -/
structure FeeConfig where
  base_fee_eur : ℚ
  percentage_fee : ℚ
deriving DecidableEq

/-- The withdrawal_requests row for this request (processed_at modelled as a
flag recording whether it was set). -/
structure WithdrawalRow where
  amount_eur : ℚ
  currency : String
  destination_address : String
  fee_eur : ℚ
  amount_crypto : ℚ
  status : String
  tx_hash : Option String
  notes : Option String
  processed_at_set : Bool
deriving DecidableEq

/-- The per-user database slice the withdrawal handler touches. walletRow is
the user_addresses row: outer none = no row, some none = row with a null
private_key_encrypted, some (some m) = parsed key blob m. -/
structure Db where
  feeConfig : Option FeeConfig
  balance_xmr : Option ℚ
  walletRow : Option (Option KeyMeta)
  withdrawal : Option WithdrawalRow
deriving DecidableEq

/-- Collective outcome of the daemon leg (open_wallet, validate_address,
get_balance, transfer): either a transaction hash and network fee, or a thrown
error message. -/
inductive RpcOutcome where
  | success (txHash : String) (fee : ℚ)
  | failure (msg : String)
deriving DecidableEq

/-- Environment of the withdrawal handler: the price-API result (none when the
response holds no monero.eur value), whether the insert errors, the daemon
outcome, and the Date.now / Math.random strings of the fabricated hash. -/
structure RpcEnv where
  xmrPrice : Option ℚ
  insertFails : Bool
  rpcResult : RpcOutcome
  nowString : String
  randString : String
deriving DecidableEq

/-- The fabricated transaction hash of the fallback path. -/
def simulatedTxHash (env : RpcEnv) : String :=
  "xmr_demo_" ++ env.nowString ++ "_" ++ env.randString

/-- The daemon leg as executed for a given wallet blob: a simulated wallet
throws before any RPC call, otherwise the environment decides. -/
def runRpcPath (walletInfo : KeyMeta) (env : RpcEnv) : RpcOutcome :=
  if walletInfo.simulated then
    .failure "Cannot process real withdrawal with simulated wallet"
  else env.rpcResult

/-- The success-response JSON body (fields absent on a path are none). -/
structure SuccessBody where
  success : Bool
  amount_eur : ℚ
  fee_eur : ℚ
  net_amount_eur : ℚ
  estimated_crypto_amount : ℚ
  actual_crypto_amount : Option ℚ
  network_fee_xmr : Option ℚ
  tx_hash : String
  currency : String
  status : String
  warning : Option String
deriving DecidableEq

/-- Response envelope: ok carries HTTP 200, err carries the status code. -/
inductive Resp where
  | ok (body : SuccessBody)
  | err (status : Nat) (message : String)
deriving DecidableEq

structure HandlerResult where
  resp : Resp
  db : Db
  statusWrites : List String
deriving DecidableEq

/-- The withdrawal handler body (after authentication), step for step from the
source: currency guard, fee lookup, fee arithmetic, net-amount guard, price
fetch (a missing or zero — falsy — price is rejected), balance check, wallet
lookup, insert of the pending row, then the daemon leg with its completed /
fallback branches. -/
def processMoneroWithdrawal (req : WithdrawalInput) (db : Db) (env : RpcEnv) :
    HandlerResult :=
  if req.currency ≠ "XMR" then
    ⟨.err 500 "This function only handles Monero withdrawals", db, []⟩
  else
    match db.feeConfig with
    | none => ⟨.err 500 "Withdrawal fees not configured for Monero", db, []⟩
    | some feeData =>
      let percentageFee := req.amount_eur * feeData.percentage_fee
      let totalFeeEur := feeData.base_fee_eur + percentageFee
      let netAmountEur := req.amount_eur - totalFeeEur
      if netAmountEur ≤ 0 then
        ⟨.err 500 "Amount too small after fees", db, []⟩
      else
        match env.xmrPrice with
        | none => ⟨.err 500 "Could not fetch Monero price", db, []⟩
        | some xmrPrice =>
          if xmrPrice = 0 then
            ⟨.err 500 "Could not fetch Monero price", db, []⟩
          else
            let cryptoAmount := netAmountEur / xmrPrice
            match db.balance_xmr with
            | none => ⟨.err 500 "Insufficient Monero balance", db, []⟩
            | some bal =>
              if bal < cryptoAmount then
                ⟨.err 500 "Insufficient Monero balance", db, []⟩
              else
                match db.walletRow with
                | none => ⟨.err 500 "Monero wallet not found for user", db, []⟩
                | some none =>
                  ⟨.err 500 "Monero wallet not found for user", db, []⟩
                | some (some walletInfo) =>
                  if env.insertFails then
                    ⟨.err 500 "withdrawal insert failed", db, []⟩
                  else
                    let inserted : WithdrawalRow :=
                      ⟨req.amount_eur, "XMR", req.destination_address,
                        totalFeeEur, cryptoAmount, "pending", none, none, false⟩
                    match runRpcPath walletInfo env with
                    | .success txHash txFee =>
                      let completedRow : WithdrawalRow :=
                        { inserted with
                            status := "completed"
                            tx_hash := some txHash
                            processed_at_set := true
                            notes := some ("Real Monero transaction. Fee: " ++
                              toString txFee ++ " XMR") }
                      ⟨.ok ⟨true, req.amount_eur, totalFeeEur, netAmountEur,
                          cryptoAmount, some cryptoAmount, some txFee, txHash,
                          "XMR", "completed", none⟩,
                        { db with
                            withdrawal := some completedRow
                            balance_xmr := some (bal - cryptoAmount) },
                        ["pending", "completed"]⟩
                    | .failure rpcMsg =>
                      let failedRow : WithdrawalRow :=
                        { inserted with
                            status := "failed"
                            notes := some ("RPC Error: " ++ rpcMsg) }
                      let simTx := simulatedTxHash env
                      let processingRow : WithdrawalRow :=
                        { failedRow with
                            status := "processing"
                            tx_hash := some simTx
                            notes := some "Simulated transaction - RPC not available" }
                      ⟨.ok ⟨true, req.amount_eur, totalFeeEur, netAmountEur,
                          cryptoAmount, none, none, simTx, "XMR", "processing",
                          some "Simulated withdrawal - Monero RPC not available"⟩,
                        { db with
                            withdrawal := some processingRow
                            balance_xmr := some (bal - cryptoAmount) },
                        ["pending", "failed", "processing"]⟩

/-! ### Status-trace vocabulary for the temporal claim. -/

/-- The status set of the informal state machine. -/
def validStatuses : List String := ["pending", "processing", "completed", "failed"]

/-- Position of a status in the order pending → processing → completed|failed. -/
def statusRank (s : String) : Nat :=
  if s = "pending" then 0 else if s = "processing" then 1 else 2

/-- A trace never moves backwards in the status order. -/
def forwardOk : List String → Bool
  | a :: b :: rest => (statusRank a ≤ statusRank b) && forwardOk (b :: rest)
  | _ => true

/-! ## Claims about the withdrawal handler -/

/-- C8: a request whose currency is not the string XMR is rejected with a 500
error response regardless of the database and environment contents (so before
any fee, price, balance or wallet read can matter), with no database write and
no withdrawal row. -/
theorem c8_non_xmr_rejected (req : WithdrawalInput) (db : Db) (env : RpcEnv)
    (h : req.currency ≠ "XMR") :
    processMoneroWithdrawal req db env =
      ⟨.err 500 "This function only handles Monero withdrawals", db, []⟩ := by
  unfold processMoneroWithdrawal
  rw [if_pos h]

/-- Witness for C8: a BTC request against a fully populated database is
rejected untouched. -/
theorem c8_non_xmr_rejected_witness :
    ("BTC" : String) ≠ "XMR" ∧
    processMoneroWithdrawal ⟨50, "BTC", "destaddr"⟩
        ⟨some ⟨2, 1/100⟩, some 5,
          some (some ⟨false, none, none, none, none, none, none, none⟩), none⟩
        ⟨some 97, false, .success "txh" (1/1000), "t", "r"⟩ =
      ⟨.err 500 "This function only handles Monero withdrawals",
        ⟨some ⟨2, 1/100⟩, some 5,
          some (some ⟨false, none, none, none, none, none, none, none⟩), none⟩,
        []⟩ :=
  ⟨by decide, c8_non_xmr_rejected _ _ _ (by decide)⟩

/-- C2: when the computed net amount (amount_eur minus base fee plus
percentage fee) is nonpositive, the handler answers with a 500 error, inserts
no withdrawal row and leaves the database — in particular the balance —
unchanged. -/
theorem c2_reject_nonpositive_net (req : WithdrawalInput) (db : Db)
    (env : RpcEnv) (fc : FeeConfig) (hfc : db.feeConfig = some fc)
    (hneg : req.amount_eur - (fc.base_fee_eur + req.amount_eur * fc.percentage_fee) ≤ 0) :
    ∃ m, processMoneroWithdrawal req db env = ⟨.err 500 m, db, []⟩ := by
  unfold processMoneroWithdrawal
  by_cases hcur : req.currency ≠ "XMR"
  · rw [if_pos hcur]
    exact ⟨_, rfl⟩
  · rw [if_neg hcur, hfc]
    refine ⟨"Amount too small after fees", ?_⟩
    simp only []
    rw [if_pos hneg]

/-- Witness for C2: with base fee 2 and percentage fee 1 percent, a 2 EUR
request nets -2/100 and is rejected with the database untouched. -/
theorem c2_reject_nonpositive_net_witness :
    (⟨some ⟨2, 1/100⟩, some 5, none, none⟩ : Db).feeConfig = some ⟨2, 1/100⟩ ∧
    (2 : ℚ) - (2 + 2 * (1/100)) ≤ 0 ∧
    ∃ m, processMoneroWithdrawal ⟨2, "XMR", "destaddr"⟩
        ⟨some ⟨2, 1/100⟩, some 5, none, none⟩
        ⟨some 97, false, .failure "down", "t", "r"⟩ =
      ⟨.err 500 m, ⟨some ⟨2, 1/100⟩, some 5, none, none⟩, []⟩ :=
  ⟨rfl, by norm_num,
    c2_reject_nonpositive_net _ _ ⟨some 97, false, .failure "down", "t", "r"⟩ _
      rfl (by norm_num)⟩

/-- C3: when the request reaches the balance check (currency XMR, fees
configured, positive net amount, a truthy price) and either no wallet_balances
row exists or the recorded balance_xmr is below the requested crypto amount
net divided by price, the handler answers 500 Insufficient Monero balance,
inserts no withdrawal row and leaves the database unchanged. -/
theorem c3_reject_insufficient_balance (req : WithdrawalInput) (db : Db)
    (env : RpcEnv) (fc : FeeConfig) (p : ℚ)
    (hcur : req.currency = "XMR") (hfc : db.feeConfig = some fc)
    (hpos : 0 < req.amount_eur - (fc.base_fee_eur + req.amount_eur * fc.percentage_fee))
    (hprice : env.xmrPrice = some p) (hp : p ≠ 0)
    (hbal : db.balance_xmr = none ∨
      ∃ b, db.balance_xmr = some b ∧
        b < (req.amount_eur - (fc.base_fee_eur + req.amount_eur * fc.percentage_fee)) / p) :
    processMoneroWithdrawal req db env =
      ⟨.err 500 "Insufficient Monero balance", db, []⟩ := by
  unfold processMoneroWithdrawal
  rw [if_neg (fun hne => hne hcur), hfc]
  simp only []
  rw [if_neg hpos.not_le, hprice]
  simp only []
  rw [if_neg hp]
  rcases hbal with hb | ⟨b, hb, hlt⟩
  · rw [hb]
  · rw [hb]
    simp only []
    rw [if_pos hlt]

/-- Witness for C3: 100 EUR at fees (2, 1 percent) and price 97 asks for
1 XMR, which a balance of 1/2 XMR cannot cover. -/
theorem c3_reject_insufficient_balance_witness :
    ("XMR" : String) = "XMR" ∧
    (⟨some ⟨2, 1/100⟩, some (1/2), none, none⟩ : Db).feeConfig = some ⟨2, 1/100⟩ ∧
    (0 : ℚ) < 100 - (2 + 100 * (1/100)) ∧
    (⟨some 97, false, .failure "down", "t", "r"⟩ : RpcEnv).xmrPrice = some 97 ∧
    (97 : ℚ) ≠ 0 ∧
    ((1 : ℚ)/2) < (100 - (2 + 100 * (1/100))) / 97 ∧
    processMoneroWithdrawal ⟨100, "XMR", "destaddr"⟩
        ⟨some ⟨2, 1/100⟩, some (1/2), none, none⟩
        ⟨some 97, false, .failure "down", "t", "r"⟩ =
      ⟨.err 500 "Insufficient Monero balance",
        ⟨some ⟨2, 1/100⟩, some (1/2), none, none⟩, []⟩ :=
  ⟨rfl, rfl, by norm_num, rfl, by norm_num, by norm_num,
    c3_reject_insufficient_balance _ _ _ _ 97 rfl rfl (by norm_num) rfl
      (by norm_num) (Or.inr ⟨1/2, rfl, by norm_num⟩)⟩

/-- C1: every success response of the withdrawal handler reports
fee_eur = base_fee_eur + amount_eur * percentage_fee and
net_amount_eur = amount_eur - fee_eur; with base fee 2, percentage fee 1/100
and amount 100 these are 3 and 97. -/
theorem c1_fee_formula (req : WithdrawalInput) (db : Db) (env : RpcEnv)
    (fc : FeeConfig) (body : SuccessBody) (hfc : db.feeConfig = some fc)
    (hok : (processMoneroWithdrawal req db env).resp = .ok body) :
    body.fee_eur = fc.base_fee_eur + req.amount_eur * fc.percentage_fee ∧
    body.net_amount_eur =
      req.amount_eur - (fc.base_fee_eur + req.amount_eur * fc.percentage_fee) ∧
    (fc.base_fee_eur = 2 → fc.percentage_fee = 1/100 → req.amount_eur = 100 →
      body.fee_eur = 3 ∧ body.net_amount_eur = 97) := by
  obtain ⟨dbFee, dbBal, dbWallet, dbWd⟩ := db
  dsimp only at hfc
  subst hfc
  unfold processMoneroWithdrawal at hok
  repeat' first
    | dsimp only at hok
    | split at hok
  any_goals exact Resp.noConfusion hok
  all_goals
    obtain rfl := (Resp.ok.inj hok).symm
    refine ⟨rfl, rfl, fun h1 h2 h3 => ⟨?_, ?_⟩⟩ <;> rw [h1, h2, h3] <;> norm_num

/-- Witness for C1: a complete successful run at fees (2, 1 percent),
amount 100 EUR, price 97, balance 5 XMR. -/
theorem c1_fee_formula_witness :
    (⟨some ⟨2, 1/100⟩, some 5,
        some (some ⟨false, none, none, none, none, none, none, none⟩),
        none⟩ : Db).feeConfig = some ⟨2, 1/100⟩ ∧
    ((⟨true, 100, 3, 97, 1, some 1, some (1/1000), "txh", "XMR", "completed",
        none⟩ : SuccessBody).fee_eur = 2 + 100 * (1/100) ∧
      (⟨true, 100, 3, 97, 1, some 1, some (1/1000), "txh", "XMR", "completed",
        none⟩ : SuccessBody).net_amount_eur = 100 - (2 + 100 * (1/100)) ∧
      ((2 : ℚ) = 2 → (1/100 : ℚ) = 1/100 → (100 : ℚ) = 100 →
        (⟨true, 100, 3, 97, 1, some 1, some (1/1000), "txh", "XMR", "completed",
          none⟩ : SuccessBody).fee_eur = 3 ∧
        (⟨true, 100, 3, 97, 1, some 1, some (1/1000), "txh", "XMR", "completed",
          none⟩ : SuccessBody).net_amount_eur = 97)) :=
  ⟨rfl,
    c1_fee_formula ⟨100, "XMR", "destaddr"⟩
      ⟨some ⟨2, 1/100⟩, some 5,
        some (some ⟨false, none, none, none, none, none, none, none⟩), none⟩
      ⟨some 97, false, .success "txh" (1/1000), "t", "r"⟩
      ⟨2, 1/100⟩
      ⟨true, 100, 3, 97, 1, some 1, some (1/1000), "txh", "XMR", "completed",
        none⟩
      rfl (by norm_num [processMoneroWithdrawal, runRpcPath])⟩

/-- Shared characterization of the daemon-failure run of the withdrawal
handler: with every check passing and the daemon leg failing, the full result
(response, database, status writes) is the fallback one. -/
lemma withdrawal_failure_run (req : WithdrawalInput) (db : Db)
    (env : RpcEnv) (fc : FeeConfig) (p b : ℚ) (walletInfo : KeyMeta)
    (msg : String)
    (hcur : req.currency = "XMR") (hfc : db.feeConfig = some fc)
    (hpos : 0 < req.amount_eur - (fc.base_fee_eur + req.amount_eur * fc.percentage_fee))
    (hprice : env.xmrPrice = some p) (hp : p ≠ 0)
    (hbal : db.balance_xmr = some b)
    (hble : ¬ b < (req.amount_eur - (fc.base_fee_eur + req.amount_eur * fc.percentage_fee)) / p)
    (hwallet : db.walletRow = some (some walletInfo))
    (hins : env.insertFails = false)
    (hrpc : runRpcPath walletInfo env = .failure msg) :
    processMoneroWithdrawal req db env =
      ⟨.ok ⟨true, req.amount_eur,
          fc.base_fee_eur + req.amount_eur * fc.percentage_fee,
          req.amount_eur - (fc.base_fee_eur + req.amount_eur * fc.percentage_fee),
          (req.amount_eur - (fc.base_fee_eur + req.amount_eur * fc.percentage_fee)) / p,
          none, none, simulatedTxHash env, "XMR", "processing",
          some "Simulated withdrawal - Monero RPC not available"⟩,
        { db with
            withdrawal := some ⟨req.amount_eur, "XMR", req.destination_address,
              fc.base_fee_eur + req.amount_eur * fc.percentage_fee,
              (req.amount_eur - (fc.base_fee_eur + req.amount_eur * fc.percentage_fee)) / p,
              "processing", some (simulatedTxHash env),
              some "Simulated transaction - RPC not available", false⟩
            balance_xmr := some (b -
              (req.amount_eur - (fc.base_fee_eur + req.amount_eur * fc.percentage_fee)) / p) },
        ["pending", "failed", "processing"]⟩ := by
  unfold processMoneroWithdrawal
  rw [if_neg (fun hne => hne hcur), hfc]
  simp only []
  rw [if_neg hpos.not_le, hprice]
  simp only []
  rw [if_neg hp, hbal]
  simp only []
  rw [if_neg hble, hwallet]
  simp only [hins, Bool.false_eq_true, if_false, hrpc]

/-- C6: when every check passes but the daemon leg fails (which includes every
simulated wallet), the handler leaves the withdrawal row at status processing
with the fabricated xmr_demo transaction hash and a simulated-transaction
note, decrements balance_xmr by the computed crypto amount, and still answers
success true carrying a warning field. -/
theorem c6_rpc_failure_fallback (req : WithdrawalInput) (db : Db)
    (env : RpcEnv) (fc : FeeConfig) (p b : ℚ) (walletInfo : KeyMeta)
    (msg : String)
    (hcur : req.currency = "XMR") (hfc : db.feeConfig = some fc)
    (hpos : 0 < req.amount_eur - (fc.base_fee_eur + req.amount_eur * fc.percentage_fee))
    (hprice : env.xmrPrice = some p) (hp : p ≠ 0)
    (hbal : db.balance_xmr = some b)
    (hble : ¬ b < (req.amount_eur - (fc.base_fee_eur + req.amount_eur * fc.percentage_fee)) / p)
    (hwallet : db.walletRow = some (some walletInfo))
    (hins : env.insertFails = false)
    (hrpc : runRpcPath walletInfo env = .failure msg) :
    processMoneroWithdrawal req db env =
      ⟨.ok ⟨true, req.amount_eur,
          fc.base_fee_eur + req.amount_eur * fc.percentage_fee,
          req.amount_eur - (fc.base_fee_eur + req.amount_eur * fc.percentage_fee),
          (req.amount_eur - (fc.base_fee_eur + req.amount_eur * fc.percentage_fee)) / p,
          none, none, simulatedTxHash env, "XMR", "processing",
          some "Simulated withdrawal - Monero RPC not available"⟩,
        { db with
            withdrawal := some ⟨req.amount_eur, "XMR", req.destination_address,
              fc.base_fee_eur + req.amount_eur * fc.percentage_fee,
              (req.amount_eur - (fc.base_fee_eur + req.amount_eur * fc.percentage_fee)) / p,
              "processing", some (simulatedTxHash env),
              some "Simulated transaction - RPC not available", false⟩
            balance_xmr := some (b -
              (req.amount_eur - (fc.base_fee_eur + req.amount_eur * fc.percentage_fee)) / p) },
        ["pending", "failed", "processing"]⟩ :=
  withdrawal_failure_run req db env fc p b walletInfo msg hcur hfc hpos hprice
    hp hbal hble hwallet hins hrpc

/-- Witness for C6: amount 100 EUR at fees (2, 1 percent), price 97, balance
5 XMR and a simulated wallet, whose daemon leg always fails. -/
theorem c6_rpc_failure_fallback_witness :
    ("XMR" : String) = "XMR" ∧
    (⟨some ⟨2, 1/100⟩, some 5,
        some (some ⟨true, none, none, none, none, none, none, none⟩),
        none⟩ : Db).feeConfig = some ⟨2, 1/100⟩ ∧
    (0 : ℚ) < 100 - (2 + 100 * (1/100)) ∧
    (⟨some 97, false, .failure "down", "t", "r"⟩ : RpcEnv).xmrPrice = some 97 ∧
    (97 : ℚ) ≠ 0 ∧
    ¬ (5 : ℚ) < (100 - (2 + 100 * (1/100))) / 97 ∧
    runRpcPath ⟨true, none, none, none, none, none, none, none⟩
        ⟨some 97, false, .failure "down", "t", "r"⟩ =
      .failure "Cannot process real withdrawal with simulated wallet" ∧
    processMoneroWithdrawal ⟨100, "XMR", "destaddr"⟩
        ⟨some ⟨2, 1/100⟩, some 5,
          some (some ⟨true, none, none, none, none, none, none, none⟩), none⟩
        ⟨some 97, false, .failure "down", "t", "r"⟩ =
      ⟨.ok ⟨true, 100, 2 + 100 * (1/100), 100 - (2 + 100 * (1/100)),
          (100 - (2 + 100 * (1/100))) / 97, none, none,
          simulatedTxHash ⟨some 97, false, .failure "down", "t", "r"⟩, "XMR",
          "processing", some "Simulated withdrawal - Monero RPC not available"⟩,
        { (⟨some ⟨2, 1/100⟩, some 5,
            some (some ⟨true, none, none, none, none, none, none, none⟩),
            none⟩ : Db) with
            withdrawal := some ⟨100, "XMR", "destaddr", 2 + 100 * (1/100),
              (100 - (2 + 100 * (1/100))) / 97, "processing",
              some (simulatedTxHash ⟨some 97, false, .failure "down", "t", "r"⟩),
              some "Simulated transaction - RPC not available", false⟩
            balance_xmr := some (5 - (100 - (2 + 100 * (1/100))) / 97) },
        ["pending", "failed", "processing"]⟩ :=
  ⟨rfl, rfl, by norm_num, rfl, by norm_num, by norm_num,
    by simp [runRpcPath],
    c6_rpc_failure_fallback _ _ _ _ 97 5
      ⟨true, none, none, none, none, none, none, none⟩
      "Cannot process real withdrawal with simulated wallet"
      rfl rfl (by norm_num) rfl (by norm_num) rfl (by norm_num) rfl rfl
      (by simp [runRpcPath])⟩

/-- C7 counterexample: on the daemon-failure path the handler writes the
status sequence pending, failed, processing to the withdrawal row — and the
step from failed to processing moves backwards in the order
pending → processing → completed|failed, refuting the claim that no update
sequence moves a status backwards. -/
theorem c7_backward_transition :
    (processMoneroWithdrawal ⟨100, "XMR", "destaddr"⟩
        ⟨some ⟨2, 1/100⟩, some 5,
          some (some ⟨true, none, none, none, none, none, none, none⟩), none⟩
        ⟨some 97, false, .failure "down", "123", "abc"⟩).statusWrites =
      ["pending", "failed", "processing"] ∧
    forwardOk ["pending", "failed", "processing"] = false := by
  constructor
  · norm_num [processMoneroWithdrawal, runRpcPath]
  · decide

/-- C7 amended: every run of the withdrawal handler writes one of the status
sequences [], [pending, completed] or [pending, failed, processing] to the
withdrawal_requests row — so rows are created pending and every status stays
inside the informal set, but the daemon-failure path moves the row backwards
from failed to processing. -/
theorem c7_status_writes (req : WithdrawalInput) (db : Db) (env : RpcEnv) :
    (processMoneroWithdrawal req db env).statusWrites = [] ∨
    (processMoneroWithdrawal req db env).statusWrites =
      ["pending", "completed"] ∨
    (processMoneroWithdrawal req db env).statusWrites =
      ["pending", "failed", "processing"] := by
  unfold processMoneroWithdrawal
  repeat' first
    | dsimp only
    | split
  all_goals simp

/-! ## Claims about the address-generation handlers -/

/-- C4: for a user whose stored XMR address row is not the string pending,
both address-generation handlers return success with exactly the stored
address and write nothing to user_addresses. -/
theorem c4_existing_address_idempotent (db : AddrDb) (envR : GenEnv)
    (envS : SimpleGenEnv) (row : AddrRow)
    (hex : db.existing = some row) (hnp : row.address ≠ "pending") :
    generateMoneroAddressRpc db envR =
      ⟨.ok row.address "User already has Monero address" none, db⟩ ∧
    generateMoneroAddressSimple db envS =
      ⟨.ok row.address "User already has Monero address" none, db⟩ := by
  constructor
  · unfold generateMoneroAddressRpc
    rw [hex]
    simp only []
    rw [if_pos hnp]
  · unfold generateMoneroAddressSimple
    rw [hex]
    simp only []
    rw [if_pos hnp]

/-- Witness for C4: a stored address 4abc is returned unchanged by both
handlers, whatever their environments would have generated. -/
theorem c4_existing_address_idempotent_witness :
    (⟨some ⟨"4abc", ⟨false, none, none, none, none, none, none, none⟩⟩⟩ :
        AddrDb).existing =
      some ⟨"4abc", ⟨false, none, none, none, none, none, none, none⟩⟩ ∧
    ("4abc" : String) ≠ "pending" ∧
    generateMoneroAddressRpc
        ⟨some ⟨"4abc", ⟨false, none, none, none, none, none, none, none⟩⟩⟩
        ⟨"u1", "7", .success "4xyz" 1 "sk" "vk", [0, 1, 2], false⟩ =
      ⟨.ok "4abc" "User already has Monero address" none,
        ⟨some ⟨"4abc", ⟨false, none, none, none, none, none, none, none⟩⟩⟩⟩ ∧
    generateMoneroAddressSimple
        ⟨some ⟨"4abc", ⟨false, none, none, none, none, none, none, none⟩⟩⟩
        ⟨[18, 255, 3], [1, 2], [3, 4], false⟩ =
      ⟨.ok "4abc" "User already has Monero address" none,
        ⟨some ⟨"4abc", ⟨false, none, none, none, none, none, none, none⟩⟩⟩⟩ :=
  ⟨rfl, by decide,
    (c4_existing_address_idempotent _
      ⟨"u1", "7", .success "4xyz" 1 "sk" "vk", [0, 1, 2], false⟩
      ⟨[18, 255, 3], [1, 2], [3, 4], false⟩ _ rfl (by decide)).1,
    (c4_existing_address_idempotent _
      ⟨"u1", "7", .success "4xyz" 1 "sk" "vk", [0, 1, 2], false⟩
      ⟨[18, 255, 3], [1, 2], [3, 4], false⟩ _ rfl (by decide)).2⟩

/-- C5 counterexample: the simple address generator fabricates its address
with the daemon path skipped, yet stores a key blob whose simulated flag is
absent (falsy): for a user with no stored row it returns success and persists
a row with simulated = false, so this fabricated row is not marked. -/
theorem c5_unmarked_fabricated_row :
    generateMoneroAddressSimple ⟨none⟩ ⟨[18, 255, 3], [1, 2], [3, 4], false⟩ =
      ⟨.ok "412ff03" "Monero address generated successfully" none,
        ⟨some ⟨"412ff03",
          ⟨false, none, none, none, none, none, some "0304", some "0102"⟩⟩⟩⟩ := by
  decide

/-- C5 amended: the simulated marking persists on the two daemon-failure
fallbacks — the RPC address generator stores simulated = true in the key blob
of every fabricated address row, and the withdrawal handler stores the
simulated-transaction note and an xmr_demo-prefixed fabricated hash on the
row it leaves at processing — but the simple address generator stores its
fabricated addresses without any simulated flag. -/
theorem c5_simulated_marking_on_fallback (adb : AddrDb) (genv : GenEnv)
    (gmsg : String) (req : WithdrawalInput) (db : Db) (env : RpcEnv)
    (fc : FeeConfig) (p b : ℚ) (walletInfo : KeyMeta) (msg : String)
    (hfresh : adb.existing = none ∨
      ∃ r, adb.existing = some r ∧ r.address = "pending")
    (hgen : genv.rpcOutcome = .failure gmsg)
    (hup : genv.upsertFails = false)
    (hcur : req.currency = "XMR") (hfc : db.feeConfig = some fc)
    (hpos : 0 < req.amount_eur - (fc.base_fee_eur + req.amount_eur * fc.percentage_fee))
    (hprice : env.xmrPrice = some p) (hp : p ≠ 0)
    (hbal : db.balance_xmr = some b)
    (hble : ¬ b < (req.amount_eur - (fc.base_fee_eur + req.amount_eur * fc.percentage_fee)) / p)
    (hwallet : db.walletRow = some (some walletInfo))
    (hins : env.insertFails = false)
    (hrpc : runRpcPath walletInfo env = .failure msg) :
    (∃ r, (generateMoneroAddressRpc adb genv).db.existing = some r ∧
      r.meta.simulated = true ∧
      r.address = simulatedAddressOf genv.fallbackBytes) ∧
    (∃ row, (processMoneroWithdrawal req db env).db.withdrawal = some row ∧
      row.status = "processing" ∧
      row.tx_hash = some (simulatedTxHash env) ∧
      row.notes = some "Simulated transaction - RPC not available" ∧
      ∃ s, simulatedTxHash env = "xmr_demo_" ++ s) := by
  constructor
  · have hfallback : genRpcFresh adb genv =
        ⟨.ok (simulatedAddressOf genv.fallbackBytes)
            "Simulated Monero address generated (RPC not available)"
            (some "This is a simulated address - not functional for real transactions"),
          ⟨some ⟨simulatedAddressOf genv.fallbackBytes,
            ⟨true,
              some "Generated without RPC - not functional for real transactions",
              none, none, none, none, none, none⟩⟩⟩⟩ := by
      unfold genRpcFresh
      rw [hgen]
      simp only [hup, Bool.false_eq_true, if_false]
    rcases hfresh with ha | ⟨r, ha, hpend⟩
    · unfold generateMoneroAddressRpc
      rw [ha, hfallback]
      exact ⟨_, rfl, rfl, rfl⟩
    · unfold generateMoneroAddressRpc
      rw [ha]
      simp only [hpend, ne_eq, not_true_eq_false, if_false, hfallback]
      exact ⟨_, rfl, rfl, rfl⟩
  · rw [withdrawal_failure_run req db env fc p b walletInfo msg hcur hfc hpos
      hprice hp hbal hble hwallet hins hrpc]
    exact ⟨_, rfl, rfl, rfl, rfl,
      ⟨env.nowString ++ "_" ++ env.randString,
        by simp [simulatedTxHash, String.append_assoc]⟩⟩

/-- Witness for the amended C5: a user with no stored row and a failing
daemon on the address side, and a simulated wallet on the withdrawal side. -/
theorem c5_simulated_marking_on_fallback_witness :
    (⟨none⟩ : AddrDb).existing = none ∧
    (⟨"u1", "7", .failure "down", [0, 1, 2], false⟩ : GenEnv).rpcOutcome =
      .failure "down" ∧
    runRpcPath ⟨true, none, none, none, none, none, none, none⟩
        ⟨some 97, false, .failure "down", "t", "r"⟩ =
      .failure "Cannot process real withdrawal with simulated wallet" ∧
    ((∃ r, (generateMoneroAddressRpc ⟨none⟩
          ⟨"u1", "7", .failure "down", [0, 1, 2], false⟩).db.existing =
            some r ∧
        r.meta.simulated = true ∧
        r.address = simulatedAddressOf [0, 1, 2]) ∧
      (∃ row, (processMoneroWithdrawal ⟨100, "XMR", "destaddr"⟩
            ⟨some ⟨2, 1/100⟩, some 5,
              some (some ⟨true, none, none, none, none, none, none, none⟩),
              none⟩
            ⟨some 97, false, .failure "down", "t", "r"⟩).db.withdrawal =
          some row ∧
        row.status = "processing" ∧
        row.tx_hash =
          some (simulatedTxHash ⟨some 97, false, .failure "down", "t", "r"⟩) ∧
        row.notes = some "Simulated transaction - RPC not available" ∧
        ∃ s, simulatedTxHash ⟨some 97, false, .failure "down", "t", "r"⟩ =
          "xmr_demo_" ++ s)) :=
  ⟨rfl, rfl, by simp [runRpcPath],
    c5_simulated_marking_on_fallback ⟨none⟩
      ⟨"u1", "7", .failure "down", [0, 1, 2], false⟩ "down"
      ⟨100, "XMR", "destaddr"⟩
      ⟨some ⟨2, 1/100⟩, some 5,
        some (some ⟨true, none, none, none, none, none, none, none⟩), none⟩
      ⟨some 97, false, .failure "down", "t", "r"⟩
      ⟨2, 1/100⟩ 97 5 ⟨true, none, none, none, none, none, none, none⟩
      "Cannot process real withdrawal with simulated wallet"
      (Or.inl rfl) rfl rfl rfl rfl (by norm_num) rfl (by norm_num) rfl
      (by norm_num) rfl rfl (by simp [runRpcPath])⟩

end DarkNodeMarket
